import Mathlib

/-!
Verification development for the HGSmart pet-feeder integration
(custom_components/hgsmart).  The vendor API client
`HGSmartApiClient` (api.py) is shallowly embedded: each HTTP request's
outcome is drawn from an explicit oracle list, the client's mutable
fields become an explicit state record, and Python exceptions raised
inside each method's try-block are translated into the corresponding
except-branch result.  The manual-feed number entity (number.py), the
feed service handler (__init__.py) and the constants (const.py) are
embedded for the portion-range properties.
-/

namespace HGSmart

/-- Shallow model of a parsed JSON value, the result of `response.json()`. -/
inductive J where
  | null : J
  | bool (b : Bool) : J
  | num (n : Int) : J
  | str (s : String) : J
  | arr (xs : List J) : J
  | obj (fields : List (String × J)) : J

/-- First-match lookup in a JSON object's field list; models `dict.get(key)`
returning `None` (here `none`) when the key is absent. -/
def lookupJ : List (String × J) → String → Option J
  | [], _ => none
  | (k, v) :: rest, key => if k = key then some v else lookupJ rest key

/-- Python truthiness of a JSON-derived value (`if not self.refresh_token`):
`None`, `False`, `0`, `""`, `[]` and `{}` are falsey. -/
def J.truthy : J → Bool
  | .null => false
  | .bool b => b
  | .num n => n != 0
  | .str s => !(s == "")
  | .arr xs => !xs.isEmpty
  | .obj fs => !fs.isEmpty

/-- Whether a JSON value is an object (a Python `dict`); `.get` on anything
else raises `AttributeError`, which the client's except-branch swallows. -/
def J.isObj : J → Bool
  | .obj _ => true
  | _ => false

/-- Models the Python comparison `data.get("code") == n` for an integer
literal `n`: true exactly when the looked-up value is the JSON number `n`. -/
def isCode (x : Option J) (n : Int) : Bool :=
  match x with
  | some (J.num m) => m == n
  | _ => false

/-- Outcome of one HTTP request: either a parsed JSON body, or `exn` for any
transport failure (timeout, connection error, malformed JSON body) raised by
`session.get`/`post`/`put` or `response.json()`. -/
inductive Outcome where
  | exn : Outcome
  | body (j : J) : Outcome

/-- Observable events of a client method: HTTP requests issued at each
endpoint, the built feed command payload, and invocations of
`refresh_access_token` (recorded at the call site in `get_devices`). -/
inductive Ev where
  | loginReq : Ev
  | refreshReq : Ev
  | refreshCall : Ev
  | listReq : Ev
  | statsReq : Ev
  | attrsReq : Ev
  | feedReq (cmd : String) (msgId : String) : Ev
  deriving DecidableEq

/-- Mutable fields of `HGSmartApiClient` (api.py `__init__`): credentials and
the two bearer tokens, which start as Python `None` (here `J.null`) and are
assigned raw JSON-derived values on successful login/refresh. -/
structure St where
  username : String
  password : String
  access_token : J
  refresh_token : J

/-- Embeds `HGSmartApiClient.__init__(username, password)`. -/
def initClient (username password : String) : St :=
  ⟨username, password, J.null, J.null⟩

/-- Result of running a client method: returned value, client state after the
call, unconsumed oracle suffix, and the event trace. -/
structure R (α : Type) where
  val : α
  st : St
  rem : List Outcome
  tr : List Ev

/-- Lowercase hexadecimal digit character for a value below 16. -/
def hexDigit (n : Nat) : Char :=
  if n < 10 then Char.ofNat (48 + n) else Char.ofNat (87 + n)

/-- Exactly `w` lowercase hex digits of `n % 16 ^ w`, most significant first:
the value of Python's zero-padded format `"%0wx" % n` whenever `n < 16 ^ w`. -/
def fixedHex : Nat → Nat → List Char
  | 0, _ => []
  | w + 1, n => fixedHex w (n / 16) ++ [hexDigit (n % 16)]

/-- Python's format `f"{n:02x}"` for a nonnegative `n`: lowercase hex digits,
left-padded with zeros to a minimum width of 2. -/
def pyHexMin2 (n : Nat) : String :=
  let s := String.mk (Nat.toDigits 16 n)
  if s.length < 2 then "0" ++ s else s

/-- Embeds api.py lines 179-182 of `send_feed_command`: the command string is
the literal `"0120"` followed by `f"{minute:02x}"` and `f"{portions:02x}"`. -/
def command_value (minute portions : Nat) : String :=
  "0120" ++ pyHexMin2 minute ++ pyHexMin2 portions

/-- The fixed node passed to `uuid.uuid1` in `send_feed_command`. -/
def uuidNode : Nat := 0x8DD711617773

/-- The fixed clock sequence passed to `uuid.uuid1` in `send_feed_command`. -/
def uuidClockSeq : Nat := 0x8697

/-- Models CPython `uuid.uuid1`'s timestamp selection: the 100-nanosecond
timestamp `sysTime`, bumped to `last + 1` whenever it does not exceed the
module-global `_last_timestamp`, so successive identifiers in one process
get strictly increasing timestamps even inside one clock tick. -/
def uuid1Timestamp (sysTime : Nat) (last : Option Nat) : Nat :=
  match last with
  | some l => if sysTime ≤ l then l + 1 else sysTime
  | none => sysTime

/-- Models the 128-bit integer of the version-1 identifier CPython builds in
`uuid.uuid1(node=0x8DD711617773, clock_seq=0x8697)`: time fields are the low
60 bits of the timestamp, the version nibble is 1, the variant bits are set
in the clock-sequence high byte, and the node is the low 48 bits. -/
def uuid1Int (ts : Nat) : Nat :=
  let time_low := ts % 2 ^ 32
  let time_mid := ts / 2 ^ 32 % 2 ^ 16
  let time_hi_version := ts / 2 ^ 48 % 2 ^ 12 + 0x1000
  let clock_seq_hi_variant := uuidClockSeq / 2 ^ 8 % 2 ^ 6 + 0x80
  let clock_seq_low := uuidClockSeq % 2 ^ 8
  ((((time_low * 2 ^ 16 + time_mid) * 2 ^ 16 + time_hi_version) * 2 ^ 8
      + clock_seq_hi_variant) * 2 ^ 8 + clock_seq_low) * 2 ^ 48 + uuidNode

/-- Embeds `spoofed_uuid.hex` (api.py line 177): `"%032x"` of the identifier's
128-bit integer, built from the post-bump timestamp `ts`. -/
def messageId (ts : Nat) : String :=
  String.mk (fixedHex 32 (uuid1Int ts))

/-- Embeds `HGSmartApiClient.login` (api.py lines 40-71).  The whole body sits
in a try-block whose except-branch returns `False`; note that on an
application-success response the two token assignments happen in order, so a
`KeyError` on `refreshToken` occurs after `access_token` was assigned. -/
def login (st : St) (o : List Outcome) : R Bool :=
  match o with
  | [] => ⟨false, st, [], [.loginReq]⟩
  | .exn :: rest => ⟨false, st, rest, [.loginReq]⟩
  | .body j :: rest =>
    match j with
    | .obj f =>
      if isCode (lookupJ f "code") 200 then
        match lookupJ f "data" with
        | some (J.obj df) =>
          match lookupJ df "accessToken" with
          | some a =>
            let st1 : St := { st with access_token := a }
            match lookupJ df "refreshToken" with
            | some r => ⟨true, { st1 with refresh_token := r }, rest, [.loginReq]⟩
            | none => ⟨false, st1, rest, [.loginReq]⟩
          | none => ⟨false, st, rest, [.loginReq]⟩
        | _ => ⟨false, st, rest, [.loginReq]⟩
      else ⟨false, st, rest, [.loginReq]⟩
    | _ => ⟨false, st, rest, [.loginReq]⟩

/-- Embeds `HGSmartApiClient.refresh_access_token` (api.py lines 73-100):
immediately returns `False` with no request when the held refresh token is
falsey; otherwise posts once and handles the response exactly as `login`. -/
def refresh_access_token (st : St) (o : List Outcome) : R Bool :=
  if st.refresh_token.truthy = false then ⟨false, st, o, []⟩
  else
    match o with
    | [] => ⟨false, st, [], [.refreshReq]⟩
    | .exn :: rest => ⟨false, st, rest, [.refreshReq]⟩
    | .body j :: rest =>
      match j with
      | .obj f =>
        if isCode (lookupJ f "code") 200 then
          match lookupJ f "data" with
          | some (J.obj df) =>
            match lookupJ df "accessToken" with
            | some a =>
              let st1 : St := { st with access_token := a }
              match lookupJ df "refreshToken" with
              | some r => ⟨true, { st1 with refresh_token := r }, rest, [.refreshReq]⟩
              | none => ⟨false, st1, rest, [.refreshReq]⟩
            | none => ⟨false, st, rest, [.refreshReq]⟩
          | _ => ⟨false, st, rest, [.refreshReq]⟩
        else ⟨false, st, rest, [.refreshReq]⟩
      | _ => ⟨false, st, rest, [.refreshReq]⟩

theorem refresh_rem_length_le (st : St) (o : List Outcome) :
    (refresh_access_token st o).rem.length ≤ o.length := by
  unfold refresh_access_token
  repeat' split
  all_goals simp

/-- Embeds `HGSmartApiClient.get_devices` (api.py lines 102-126): one GET; an
application code of 200 returns `data.get("data", [])`, 401 triggers one
`refresh_access_token` call and, when that succeeds, a recursive retry; any
other code, a non-dict body, or a transport error returns the empty list. -/
def get_devices (st : St) (o : List Outcome) : R J :=
  match o with
  | [] => ⟨J.arr [], st, [], [.listReq]⟩
  | .exn :: rest => ⟨J.arr [], st, rest, [.listReq]⟩
  | .body j :: rest =>
    match j with
    | .obj f =>
      if isCode (lookupJ f "code") 200 then
        ⟨(lookupJ f "data").getD (J.arr []), st, rest, [.listReq]⟩
      else if isCode (lookupJ f "code") 401 then
        let r := refresh_access_token st rest
        if r.val then
          let g := get_devices r.st r.rem
          ⟨g.val, g.st, g.rem, .listReq :: .refreshCall :: (r.tr ++ g.tr)⟩
        else ⟨J.arr [], r.st, r.rem, .listReq :: .refreshCall :: r.tr⟩
      else ⟨J.arr [], st, rest, [.listReq]⟩
    | _ => ⟨J.arr [], st, rest, [.listReq]⟩
termination_by o.length
decreasing_by
  have h := refresh_rem_length_le st rest
  simp only [List.length_cons]
  omega

/-- Embeds `HGSmartApiClient.get_feeder_stats` (api.py lines 128-147): a
single GET with no refresh and no retry; any non-200 application code,
non-dict body or transport error returns `None`. -/
def get_feeder_stats (st : St) (deviceId : String) (o : List Outcome) :
    R (Option J) :=
  match o with
  | [] => ⟨none, st, [], [.statsReq]⟩
  | .exn :: rest => ⟨none, st, rest, [.statsReq]⟩
  | .body j :: rest =>
    match j with
    | .obj f =>
      if isCode (lookupJ f "code") 200 then ⟨lookupJ f "data", st, rest, [.statsReq]⟩
      else ⟨none, st, rest, [.statsReq]⟩
    | _ => ⟨none, st, rest, [.statsReq]⟩

/-- Embeds `HGSmartApiClient.get_device_attributes` (api.py lines 149-168):
identical contract to `get_feeder_stats` on a different endpoint. -/
def get_device_attributes (st : St) (deviceId : String) (o : List Outcome) :
    R (Option J) :=
  match o with
  | [] => ⟨none, st, [], [.attrsReq]⟩
  | .exn :: rest => ⟨none, st, rest, [.attrsReq]⟩
  | .body j :: rest =>
    match j with
    | .obj f =>
      if isCode (lookupJ f "code") 200 then ⟨lookupJ f "data", st, rest, [.attrsReq]⟩
      else ⟨none, st, rest, [.attrsReq]⟩
    | _ => ⟨none, st, rest, [.attrsReq]⟩

/-- Embeds `HGSmartApiClient.send_feed_command` (api.py lines 170-221):
builds `command_value` from the current local minute and the portion count
and `message_id` from the spoofed version-1 identifier (post-bump timestamp
`ts`), issues one PUT, and returns whether the application code was 200;
the client state is never written. -/
def send_feed_command (st : St) (deviceId : String) (portions : Nat)
    (minute : Nat) (ts : Nat) (o : List Outcome) : R Bool :=
  let ev : Ev := .feedReq (command_value minute portions) (messageId ts)
  match o with
  | [] => ⟨false, st, [], [ev]⟩
  | .exn :: rest => ⟨false, st, rest, [ev]⟩
  | .body j :: rest =>
    match j with
    | .obj f =>
      if isCode (lookupJ f "code") 200 then ⟨true, st, rest, [ev]⟩
      else ⟨false, st, rest, [ev]⟩
    | _ => ⟨false, st, rest, [ev]⟩

/-- Embeds `MIN_PORTIONS` from const.py. -/
def MIN_PORTIONS : Nat := 1

/-- Embeds `MAX_PORTIONS` from const.py (the vendor-documented maximum). -/
def MAX_PORTIONS : Nat := 9

/-- Embeds the value range of `HGSmartManualFeedPortions` (number.py lines
62-64): `native_min_value = 1`, `native_max_value = 10`, `native_step = 1`. -/
def manualFeedPortionsMin : Nat := 1

/-- The entity's `native_max_value` (number.py line 63). -/
def manualFeedPortionsMax : Nat := 10

/-- The entity's `native_step` (number.py line 64). -/
def manualFeedPortionsStep : Nat := 1

/-- A portion value settable through the manual-feed number entity: the host
framework accepts exactly the values between `native_min_value` and
`native_max_value` on the `native_step` grid. -/
def entityAllowed (v : Nat) : Bool :=
  manualFeedPortionsMin ≤ v && v ≤ manualFeedPortionsMax
    && (v - manualFeedPortionsMin) % manualFeedPortionsStep == 0

/-- Embeds `portions = call.data.get(ATTR_PORTIONS, 1)` from the feed service
handler (__init__.py line 85): the requested portions value is taken from the
service-call data with default 1 and passed to `send_feed_command` with no
validation or clamping. -/
def servicePortions (callData : List (String × J)) : J :=
  (lookupJ callData "portions").getD (J.num 1)

/-- Whether a character is a lowercase hexadecimal digit. -/
def isLowerHexChar (c : Char) : Bool :=
  (48 ≤ c.toNat && c.toNat ≤ 57) || (97 ≤ c.toNat && c.toNat ≤ 102)

theorem fixedHex_length (w : Nat) : ∀ n, (fixedHex w n).length = w := by
  induction w with
  | zero => intro n; rfl
  | succ w ih => intro n; simp [fixedHex, ih]

theorem hexDigit_lower : ∀ d, d < 16 → isLowerHexChar (hexDigit d) = true := by
  decide

theorem fixedHex_chars (w : Nat) :
    ∀ n, ∀ c ∈ fixedHex w n, isLowerHexChar c = true := by
  induction w with
  | zero => intro n c hc; simp [fixedHex] at hc
  | succ w ih =>
    intro n c hc
    simp only [fixedHex, List.mem_append, List.mem_singleton] at hc
    rcases hc with hc | hc
    · exact ih _ c hc
    · subst hc; exact hexDigit_lower _ (Nat.mod_lt n (by norm_num))

set_option maxRecDepth 4000 in
theorem pyHexMin2_eq_fixedHex : ∀ n, n < 256 → pyHexMin2 n = String.mk (fixedHex 2 n) := by
  decide

/-- C1.  For every call to `send_feed_command` with local minute `m` (0-59)
and portion count `p` (any value with a 2-hex-digit rendering), the built
`command_value` is exactly `"0120"` followed by the 2-digit zero-padded
lowercase hex of `m` and then of `p`, an 8-character string; in particular
minute 0 with 1 portion gives `"01200001"` and minute 59 with 9 portions
gives `"01203b09"`, and the issued request carries exactly that command. -/
theorem claim1_command_value_encoding (st : St) (id : String)
    (m p ts : Nat) (o : List Outcome) (hm : m < 60) (hp : p < 256) :
    command_value m p = "0120" ++ String.mk (fixedHex 2 m) ++ String.mk (fixedHex 2 p)
    ∧ (command_value m p).length = 8
    ∧ (∀ c ∈ (command_value m p).data, isLowerHexChar c = true)
    ∧ command_value 0 1 = "01200001"
    ∧ command_value 59 9 = "01203b09"
    ∧ (send_feed_command st id p m ts o).tr
        = [.feedReq (command_value m p) (messageId ts)] := by
  have hmain : command_value m p
      = "0120" ++ String.mk (fixedHex 2 m) ++ String.mk (fixedHex 2 p) := by
    unfold command_value
    rw [pyHexMin2_eq_fixedHex m (by omega), pyHexMin2_eq_fixedHex p hp]
  refine ⟨hmain, ?_, ?_, by decide, by decide, ?_⟩
  · rw [hmain]
    have h1 : (String.mk (fixedHex 2 m)).length = 2 := by
      show (fixedHex 2 m).length = 2; exact fixedHex_length 2 m
    have h2 : (String.mk (fixedHex 2 p)).length = 2 := by
      show (fixedHex 2 p).length = 2; exact fixedHex_length 2 p
    have h0 : ("0120" : String).length = 4 := rfl
    simp [String.length_append, h0, h1, h2]
  · rw [hmain]
    intro c hc
    have : c ∈ ("0120".data ++ fixedHex 2 m) ++ fixedHex 2 p := by
      simpa [String.data_append] using hc
    simp only [List.mem_append] at this
    rcases this with (hc' | hc') | hc'
    · have h0120 : ∀ c ∈ "0120".data, isLowerHexChar c = true := by decide
      exact h0120 c hc'
    · exact fixedHex_chars 2 m c hc'
    · exact fixedHex_chars 2 p c hc'
  · unfold send_feed_command
    repeat' split
    all_goals rfl

/-- Witness for C1 at minute 0, 1 portion (and minute 59, 9 portions). -/
theorem claim1_command_value_encoding_witness :
    command_value 0 1 = "0120" ++ String.mk (fixedHex 2 0) ++ String.mk (fixedHex 2 1)
    ∧ (command_value 0 1).length = 8
    ∧ (∀ c ∈ (command_value 0 1).data, isLowerHexChar c = true)
    ∧ command_value 0 1 = "01200001"
    ∧ command_value 59 9 = "01203b09"
    ∧ (send_feed_command (initClient "u" "p") "dev" 1 0 0 []).tr
        = [.feedReq (command_value 0 1) (messageId 0)] :=
  claim1_command_value_encoding (initClient "u" "p") "dev" 0 1 0 []
    (by decide) (by decide)

theorem uuid1Int_lt (ts : Nat) : uuid1Int ts < 2 ^ 128 := by
  simp only [uuid1Int, uuidClockSeq, uuidNode]
  omega

theorem uuid1Int_node (ts : Nat) : uuid1Int ts % 2 ^ 48 = uuidNode := by
  simp only [uuid1Int, uuidClockSeq, uuidNode]
  omega

theorem uuid1Int_clock_seq (ts : Nat) :
    uuid1Int ts / 2 ^ 48 % 2 ^ 16 = uuidClockSeq := by
  simp only [uuid1Int, uuidClockSeq, uuidNode]
  omega

theorem uuid1Int_time_hi (ts : Nat) :
    uuid1Int ts / 2 ^ 64 % 2 ^ 16 = ts / 2 ^ 48 % 2 ^ 12 + 4096 := by
  simp only [uuid1Int, uuidClockSeq, uuidNode]
  omega

theorem uuid1Int_hi48 (ts : Nat) :
    uuid1Int ts / 2 ^ 80 = ts % 2 ^ 32 * 2 ^ 16 + ts / 2 ^ 32 % 2 ^ 16 := by
  simp only [uuid1Int, uuidClockSeq, uuidNode]
  omega

theorem uuid1Int_time_mid (ts : Nat) :
    uuid1Int ts / 2 ^ 80 % 2 ^ 16 = ts / 2 ^ 32 % 2 ^ 16 := by
  have h := uuid1Int_hi48 ts
  omega

theorem uuid1Int_time_hi12 (ts : Nat) :
    uuid1Int ts / 2 ^ 64 % 2 ^ 12 = ts / 2 ^ 48 % 2 ^ 12 := by
  simp only [uuid1Int, uuidClockSeq, uuidNode]
  omega

theorem uuid1Int_time_low (ts : Nat) : uuid1Int ts / 2 ^ 96 = ts % 2 ^ 32 := by
  simp only [uuid1Int, uuidClockSeq, uuidNode]
  omega

theorem uuid1Int_version (ts : Nat) : uuid1Int ts / 2 ^ 76 % 2 ^ 4 = 1 := by
  have hhi := uuid1Int_time_hi ts
  have hident : uuid1Int ts / 2 ^ 76 % 2 ^ 4 = uuid1Int ts / 2 ^ 64 % 2 ^ 16 / 2 ^ 12 := by
    omega
  omega

theorem uuid1Int_timestamp (ts : Nat) :
    uuid1Int ts / 2 ^ 96 + 2 ^ 32 * (uuid1Int ts / 2 ^ 80 % 2 ^ 16)
      + 2 ^ 48 * (uuid1Int ts / 2 ^ 64 % 2 ^ 12) = ts % 2 ^ 60 := by
  rw [uuid1Int_time_low ts, uuid1Int_time_mid ts, uuid1Int_time_hi12 ts]
  omega

theorem uuid1Int_inj (a b : Nat) (h : a % 2 ^ 60 ≠ b % 2 ^ 60) :
    uuid1Int a ≠ uuid1Int b := by
  intro heq
  apply h
  rw [← uuid1Int_timestamp a, ← uuid1Int_timestamp b, heq]

theorem messageId_length (ts : Nat) : (messageId ts).length = 32 := by
  show (fixedHex 32 (uuid1Int ts)).length = 32
  exact fixedHex_length 32 _

theorem messageId_chars (ts : Nat) :
    ∀ c ∈ (messageId ts).data, isLowerHexChar c = true := by
  show ∀ c ∈ fixedHex 32 (uuid1Int ts), isLowerHexChar c = true
  exact fixedHex_chars 32 _

theorem hexDigit_inj : ∀ a, a < 16 → ∀ b, b < 16 → hexDigit a = hexDigit b → a = b := by
  decide

theorem fixedHex_inj (w : Nat) :
    ∀ a b, a < 16 ^ w → b < 16 ^ w → fixedHex w a = fixedHex w b → a = b := by
  induction w with
  | zero => intro a b ha hb _; omega
  | succ w ih =>
    intro a b ha hb heq
    simp only [fixedHex] at heq
    have hlen : (fixedHex w (a / 16)).length = (fixedHex w (b / 16)).length := by
      rw [fixedHex_length, fixedHex_length]
    have := List.append_inj heq hlen
    have hdiv : a / 16 = b / 16 := by
      refine ih _ _ ?_ ?_ this.1
      · have : a < 16 ^ w * 16 := by rw [← pow_succ]; exact ha
        omega
      · have : b < 16 ^ w * 16 := by rw [← pow_succ]; exact hb
        omega
    have hmod : a % 16 = b % 16 := by
      have h2 := this.2
      simp only [List.cons.injEq] at h2
      exact hexDigit_inj _ (Nat.mod_lt a (by norm_num)) _ (Nat.mod_lt b (by norm_num)) h2.1
    omega

theorem messageId_inj (a b : Nat) (h : a % 2 ^ 60 ≠ b % 2 ^ 60) :
    messageId a ≠ messageId b := by
  intro heq
  apply uuid1Int_inj a b h
  have hl : fixedHex 32 (uuid1Int a) = fixedHex 32 (uuid1Int b) := by
    have : (String.mk (fixedHex 32 (uuid1Int a))).data
        = (String.mk (fixedHex 32 (uuid1Int b))).data := by
      rw [show String.mk (fixedHex 32 (uuid1Int a)) = messageId a from rfl,
        show String.mk (fixedHex 32 (uuid1Int b)) = messageId b from rfl, heq]
    simpa using this
  have h16 : (16 : Nat) ^ 32 = 2 ^ 128 := by norm_num
  exact fixedHex_inj 32 _ _ (h16 ▸ uuid1Int_lt a) (h16 ▸ uuid1Int_lt b) hl

/-- C8.  On every call, `message_id` is the 32-character lowercase hex string
of the version-1 identifier whose node field is `0x8DD711617773` and whose
clock-sequence field is `0x8697`; and for two successive calls in the same
process whose post-bump timestamps differ by less than the 60-bit time field
wraps (in particular for two calls in the same clock tick, where the second
timestamp is the first plus one), the two `message_id` values differ. -/
theorem claim8_message_id (last : Option Nat) (t1 t2 : Nat)
    (hd : uuid1Timestamp t2 (some (uuid1Timestamp t1 last)) - uuid1Timestamp t1 last
      < 2 ^ 60) :
    (messageId (uuid1Timestamp t1 last)).length = 32
    ∧ (∀ c ∈ (messageId (uuid1Timestamp t1 last)).data, isLowerHexChar c = true)
    ∧ uuid1Int (uuid1Timestamp t1 last) % 2 ^ 48 = uuidNode
    ∧ uuid1Int (uuid1Timestamp t1 last) / 2 ^ 48 % 2 ^ 16 = uuidClockSeq
    ∧ uuid1Int (uuid1Timestamp t1 last) / 2 ^ 76 % 2 ^ 4 = 1
    ∧ uuid1Timestamp t1 last < uuid1Timestamp t2 (some (uuid1Timestamp t1 last))
    ∧ messageId (uuid1Timestamp t1 last)
        ≠ messageId (uuid1Timestamp t2 (some (uuid1Timestamp t1 last))) := by
  have hlt : uuid1Timestamp t1 last < uuid1Timestamp t2 (some (uuid1Timestamp t1 last)) := by
    have : ∀ t l : Nat, l < uuid1Timestamp t (some l) := by
      intro t l
      simp only [uuid1Timestamp]
      split <;> omega
    exact this t2 _
  refine ⟨messageId_length _, messageId_chars _, uuid1Int_node _,
    uuid1Int_clock_seq _, uuid1Int_version _, hlt, ?_⟩
  exact messageId_inj _ _ (by omega)

/-- Witness for C8: two calls in the same clock tick (system timestamp 5
twice) produce distinct 32-character identifiers. -/
theorem claim8_message_id_witness :
    (messageId (uuid1Timestamp 5 none)).length = 32
    ∧ (∀ c ∈ (messageId (uuid1Timestamp 5 none)).data, isLowerHexChar c = true)
    ∧ uuid1Int (uuid1Timestamp 5 none) % 2 ^ 48 = uuidNode
    ∧ uuid1Int (uuid1Timestamp 5 none) / 2 ^ 48 % 2 ^ 16 = uuidClockSeq
    ∧ uuid1Int (uuid1Timestamp 5 none) / 2 ^ 76 % 2 ^ 4 = 1
    ∧ uuid1Timestamp 5 none < uuid1Timestamp 5 (some (uuid1Timestamp 5 none))
    ∧ messageId (uuid1Timestamp 5 none)
        ≠ messageId (uuid1Timestamp 5 (some (uuid1Timestamp 5 none))) :=
  claim8_message_id none 5 5 (by decide)

theorem get_devices_401_unfold (st : St) (f : List (String × J)) (rest : List Outcome)
    (h : lookupJ f "code" = some (J.num 401)) :
    get_devices st (.body (J.obj f) :: rest) =
      (if (refresh_access_token st rest).val then
        let g := get_devices (refresh_access_token st rest).st (refresh_access_token st rest).rem
        ⟨g.val, g.st, g.rem,
          .listReq :: .refreshCall :: ((refresh_access_token st rest).tr ++ g.tr)⟩
      else ⟨J.arr [], (refresh_access_token st rest).st, (refresh_access_token st rest).rem,
        .listReq :: .refreshCall :: (refresh_access_token st rest).tr⟩) := by
  rw [get_devices]
  have h200 : isCode (lookupJ f "code") 200 = false := by simp [isCode, h]
  have h401 : isCode (lookupJ f "code") 401 = true := by simp [isCode, h]
  simp [h200, h401]

theorem refresh_tr_count (st : St) (o : List Outcome) :
    (refresh_access_token st o).tr.count Ev.refreshCall = 0 := by
  unfold refresh_access_token
  repeat' split
  all_goals rfl

/-- C2 counterexample.  With a held refresh token and a server that answers
401 twice, each time followed by a successful refresh, one `get_devices` call
performs two refresh attempts: the retry is recursive, not once-only. -/
theorem claim2_counterexample :
    (get_devices ⟨"u", "p", J.null, J.str "rt"⟩
        [.body (J.obj [("code", J.num 401)]),
         .body (J.obj [("code", J.num 200),
           ("data", J.obj [("accessToken", J.str "a"), ("refreshToken", J.str "b")])]),
         .body (J.obj [("code", J.num 401)]),
         .body (J.obj [("code", J.num 200),
           ("data", J.obj [("accessToken", J.str "c"), ("refreshToken", J.str "d")])]),
         .exn]).tr.count Ev.refreshCall = 2 := by
  rw [get_devices_401_unfold _ _ _ (by rfl)]
  simp [refresh_access_token, J.truthy, isCode, lookupJ]
  rw [get_devices_401_unfold _ _ _ (by rfl)]
  simp [refresh_access_token, J.truthy, isCode, lookupJ]
  rw [get_devices]
  simp [List.count]

/-- C2 (amended).  On a 401 device-list response, `get_devices` triggers
exactly one `refresh_access_token` call for that response; if the refresh
fails it returns the empty list immediately, with that single refresh attempt
and no re-issued fetch; if the refresh succeeds it re-issues the fetch once by
recursion, so a run in which the server keeps answering 401 and refreshes keep
succeeding performs one refresh attempt per 401 response rather than at most
one overall. -/
theorem claim2_refresh_retry (st : St) (f : List (String × J)) (rest : List Outcome)
    (h : lookupJ f "code" = some (J.num 401)) :
    ((refresh_access_token st rest).val = false →
      get_devices st (.body (J.obj f) :: rest)
        = ⟨J.arr [], (refresh_access_token st rest).st, (refresh_access_token st rest).rem,
            .listReq :: .refreshCall :: (refresh_access_token st rest).tr⟩
      ∧ (get_devices st (.body (J.obj f) :: rest)).tr.count Ev.refreshCall = 1)
    ∧ ((refresh_access_token st rest).val = true →
      get_devices st (.body (J.obj f) :: rest)
        = ⟨(get_devices (refresh_access_token st rest).st (refresh_access_token st rest).rem).val,
            (get_devices (refresh_access_token st rest).st (refresh_access_token st rest).rem).st,
            (get_devices (refresh_access_token st rest).st (refresh_access_token st rest).rem).rem,
            .listReq :: .refreshCall :: ((refresh_access_token st rest).tr
              ++ (get_devices (refresh_access_token st rest).st
                    (refresh_access_token st rest).rem).tr)⟩) := by
  have hu := get_devices_401_unfold st f rest h
  constructor
  · intro hv
    rw [hu, if_neg (by simp [hv])]
    refine ⟨rfl, ?_⟩
    simp [List.count_cons, refresh_tr_count]
  · intro hv
    rw [hu, if_pos hv]

/-- Witness for C2 (amended): with no held refresh token the refresh fails,
and a single 401 response yields the empty list after exactly one refresh
attempt and no re-issued fetch. -/
theorem claim2_refresh_retry_witness :
    get_devices ⟨"u", "p", J.null, J.null⟩ [.body (J.obj [("code", J.num 401)])]
      = ⟨J.arr [], ⟨"u", "p", J.null, J.null⟩, [], [.listReq, .refreshCall]⟩
    ∧ (get_devices ⟨"u", "p", J.null, J.null⟩
        [.body (J.obj [("code", J.num 401)])]).tr.count Ev.refreshCall = 1 :=
  (claim2_refresh_retry ⟨"u", "p", J.null, J.null⟩ [("code", J.num 401)] [] rfl).1 rfl

theorem login_fail_state (st : St) (o : List Outcome) (h : (login st o).val = false) :
    (login st o).st = st
    ∨ ∃ f df a rest, o = .body (J.obj f) :: rest
        ∧ isCode (lookupJ f "code") 200 = true
        ∧ lookupJ f "data" = some (J.obj df)
        ∧ lookupJ df "accessToken" = some a
        ∧ lookupJ df "refreshToken" = none
        ∧ (login st o).st = { st with access_token := a } := by
  match o with
  | [] => exact Or.inl rfl
  | .exn :: rest => exact Or.inl rfl
  | .body j :: rest =>
    match j with
    | .null | .bool _ | .num _ | .str _ | .arr _ => exact Or.inl rfl
    | .obj f =>
      by_cases hc : isCode (lookupJ f "code") 200 = true
      · match hd : lookupJ f "data" with
        | none =>
          left
          simp only [login, hc, if_true, hd]
        | some (J.obj df) =>
          match ha : lookupJ df "accessToken" with
          | none =>
            left
            simp only [login, hc, if_true, hd, ha]
          | some a =>
            match hr : lookupJ df "refreshToken" with
            | none =>
              refine Or.inr ⟨f, df, a, rest, rfl, hc, hd, ha, hr, ?_⟩
              simp only [login, hc, if_true, hd, ha, hr]
            | some r =>
              exfalso
              simp only [login, hc, if_true, hd, ha, hr] at h
              exact Bool.noConfusion h
        | some J.null | some (J.bool _) | some (J.num _) | some (J.str _) | some (J.arr _) =>
          left
          simp only [login, hc, if_true, hd]
      · left
        simp only [login, if_neg hc]

theorem refresh_fail_state (st : St) (o : List Outcome)
    (h : (refresh_access_token st o).val = false) :
    (refresh_access_token st o).st = st
    ∨ ∃ f df a rest, o = .body (J.obj f) :: rest
        ∧ isCode (lookupJ f "code") 200 = true
        ∧ lookupJ f "data" = some (J.obj df)
        ∧ lookupJ df "accessToken" = some a
        ∧ lookupJ df "refreshToken" = none
        ∧ (refresh_access_token st o).st = { st with access_token := a } := by
  by_cases ht : st.refresh_token.truthy = false
  · left
    simp only [refresh_access_token, if_pos ht]
  · match o with
    | [] =>
      left
      simp only [refresh_access_token, if_neg ht]
    | .exn :: rest =>
      left
      simp only [refresh_access_token, if_neg ht]
    | .body j :: rest =>
      match j with
      | .null | .bool _ | .num _ | .str _ | .arr _ =>
        left
        simp only [refresh_access_token, if_neg ht]
      | .obj f =>
        by_cases hc : isCode (lookupJ f "code") 200 = true
        · match hd : lookupJ f "data" with
          | none =>
            left
            simp only [refresh_access_token, if_neg ht, hc, if_true, hd]
          | some (J.obj df) =>
            match ha : lookupJ df "accessToken" with
            | none =>
              left
              simp only [refresh_access_token, if_neg ht, hc, if_true, hd, ha]
            | some a =>
              match hr : lookupJ df "refreshToken" with
              | none =>
                refine Or.inr ⟨f, df, a, rest, rfl, hc, hd, ha, hr, ?_⟩
                simp only [refresh_access_token, if_neg ht, hc, if_true, hd, ha, hr]
              | some r =>
                exfalso
                simp only [refresh_access_token, if_neg ht, hc, if_true, hd, ha, hr] at h
                exact Bool.noConfusion h
          | some J.null | some (J.bool _) | some (J.num _) | some (J.str _) | some (J.arr _) =>
            left
            simp only [refresh_access_token, if_neg ht, hc, if_true, hd]
        · left
          simp only [refresh_access_token, if_neg ht, if_neg hc]

/-- C4 counterexample.  A response with application code 200 whose data holds
an `accessToken` but no `refreshToken` makes `login` return failure after
having already overwritten `access_token`: failing login is not atomic. -/
theorem claim4_counterexample :
    (login ⟨"u", "p", J.null, J.null⟩
        [.body (J.obj [("code", J.num 200),
          ("data", J.obj [("accessToken", J.str "x")])])]).val = false
    ∧ (login ⟨"u", "p", J.null, J.null⟩
        [.body (J.obj [("code", J.num 200),
          ("data", J.obj [("accessToken", J.str "x")])])]).st.access_token = J.str "x"
    ∧ (⟨"u", "p", J.null, J.null⟩ : St).access_token ≠ J.str "x" :=
  ⟨rfl, rfl, fun hx => J.noConfusion hx⟩

/-- C4 (amended).  A failing `login` or `refresh_access_token` never changes
`refresh_token`, and leaves the whole state untouched except in one case: a
success-coded response whose data carries an `accessToken` but no
`refreshToken`, where `access_token` alone is overwritten before the failure
return.  `refresh_access_token` returns failure without issuing any request
when no (truthy) refresh token is held, leaving state and oracle untouched. -/
theorem claim4_failure_token_state (st st2 : St) (o o2 : List Outcome)
    (hl : (login st o).val = false)
    (hr : (refresh_access_token st o).val = false)
    (h2 : st2.refresh_token.truthy = false) :
    (login st o).st.refresh_token = st.refresh_token
    ∧ ((login st o).st = st
        ∨ ∃ f df a rest, o = .body (J.obj f) :: rest
            ∧ isCode (lookupJ f "code") 200 = true
            ∧ lookupJ f "data" = some (J.obj df)
            ∧ lookupJ df "accessToken" = some a
            ∧ lookupJ df "refreshToken" = none
            ∧ (login st o).st = { st with access_token := a })
    ∧ (refresh_access_token st o).st.refresh_token = st.refresh_token
    ∧ ((refresh_access_token st o).st = st
        ∨ ∃ f df a rest, o = .body (J.obj f) :: rest
            ∧ isCode (lookupJ f "code") 200 = true
            ∧ lookupJ f "data" = some (J.obj df)
            ∧ lookupJ df "accessToken" = some a
            ∧ lookupJ df "refreshToken" = none
            ∧ (refresh_access_token st o).st = { st with access_token := a })
    ∧ refresh_access_token st2 o2 = ⟨false, st2, o2, []⟩ := by
  have hls := login_fail_state st o hl
  have hrs := refresh_fail_state st o hr
  refine ⟨?_, hls, ?_, hrs, ?_⟩
  · rcases hls with hst | ⟨f, df, a, rest, _, _, _, _, _, hst⟩ <;> rw [hst]
  · rcases hrs with hst | ⟨f, df, a, rest, _, _, _, _, _, hst⟩ <;> rw [hst]
  · simp only [refresh_access_token, if_pos h2]

/-- Witness for C4 (amended): a transport error on login and refresh with no
held refresh token, at concrete inputs. -/
theorem claim4_failure_token_state_witness :
    (login (initClient "u" "p") [.exn]).st.refresh_token
        = (initClient "u" "p").refresh_token
    ∧ ((login (initClient "u" "p") [.exn]).st = initClient "u" "p"
        ∨ ∃ f df a rest, ([Outcome.exn] : List Outcome) = .body (J.obj f) :: rest
            ∧ isCode (lookupJ f "code") 200 = true
            ∧ lookupJ f "data" = some (J.obj df)
            ∧ lookupJ df "accessToken" = some a
            ∧ lookupJ df "refreshToken" = none
            ∧ (login (initClient "u" "p") [.exn]).st
                = { initClient "u" "p" with access_token := a })
    ∧ (refresh_access_token (initClient "u" "p") [.exn]).st.refresh_token
        = (initClient "u" "p").refresh_token
    ∧ ((refresh_access_token (initClient "u" "p") [.exn]).st = initClient "u" "p"
        ∨ ∃ f df a rest, ([Outcome.exn] : List Outcome) = .body (J.obj f) :: rest
            ∧ isCode (lookupJ f "code") 200 = true
            ∧ lookupJ f "data" = some (J.obj df)
            ∧ lookupJ df "accessToken" = some a
            ∧ lookupJ df "refreshToken" = none
            ∧ (refresh_access_token (initClient "u" "p") [.exn]).st
                = { initClient "u" "p" with access_token := a })
    ∧ refresh_access_token (initClient "u" "p") []
        = ⟨false, initClient "u" "p", [], []⟩ :=
  claim4_failure_token_state (initClient "u" "p") (initClient "u" "p")
    [.exn] [] rfl rfl rfl

/-- C7 counterexample.  A success-coded response whose `accessToken` is the
empty string makes `login` return success with an empty `access_token`: the
client does not validate non-emptiness. -/
theorem claim7_counterexample :
    (login (initClient "u" "p")
        [.body (J.obj [("code", J.num 200),
          ("data", J.obj [("accessToken", J.str ""), ("refreshToken", J.str "r")])])]).val
      = true
    ∧ (login (initClient "u" "p")
        [.body (J.obj [("code", J.num 200),
          ("data", J.obj [("accessToken", J.str ""), ("refreshToken", J.str "r")])])]).st.access_token
      = J.str "" :=
  ⟨rfl, rfl⟩

/-- C7 (amended).  Every successful `login` consumed a success-coded response
whose data carries both `accessToken` and `refreshToken`, and stores exactly
those two values in `access_token` and `refresh_token`; `access_token` is
therefore non-empty exactly when the server's value is, since the client
performs no validation of its own. -/
theorem claim7_login_success (st : St) (o : List Outcome)
    (h : (login st o).val = true) :
    ∃ f df a r rest, o = .body (J.obj f) :: rest
      ∧ isCode (lookupJ f "code") 200 = true
      ∧ lookupJ f "data" = some (J.obj df)
      ∧ lookupJ df "accessToken" = some a
      ∧ lookupJ df "refreshToken" = some r
      ∧ (login st o).st = { st with access_token := a, refresh_token := r } := by
  match o with
  | [] => exact Bool.noConfusion h
  | .exn :: rest => exact Bool.noConfusion h
  | .body j :: rest =>
    match j with
    | .null | .bool _ | .num _ | .str _ | .arr _ => exact Bool.noConfusion h
    | .obj f =>
      by_cases hc : isCode (lookupJ f "code") 200 = true
      · match hd : lookupJ f "data" with
        | none =>
          exfalso
          simp only [login, hc, if_true, hd] at h
          exact Bool.noConfusion h
        | some (J.obj df) =>
          match ha : lookupJ df "accessToken" with
          | none =>
            exfalso
            simp only [login, hc, if_true, hd, ha] at h
            exact Bool.noConfusion h
          | some a =>
            match hr : lookupJ df "refreshToken" with
            | none =>
              exfalso
              simp only [login, hc, if_true, hd, ha, hr] at h
              exact Bool.noConfusion h
            | some r =>
              refine ⟨f, df, a, r, rest, rfl, hc, hd, ha, hr, ?_⟩
              simp only [login, hc, if_true, hd, ha, hr]
        | some J.null | some (J.bool _) | some (J.num _) | some (J.str _) | some (J.arr _) =>
          exfalso
          simp only [login, hc, if_true, hd] at h
          exact Bool.noConfusion h
      · exfalso
        simp only [login, if_neg hc] at h
        exact Bool.noConfusion h

/-- Witness for C7 (amended) at a concrete successful login. -/
theorem claim7_login_success_witness :
    ∃ f df a r rest,
      ([Outcome.body (J.obj [("code", J.num 200),
          ("data", J.obj [("accessToken", J.str "tok"), ("refreshToken", J.str "ref")])])]
        : List Outcome) = .body (J.obj f) :: rest
      ∧ isCode (lookupJ f "code") 200 = true
      ∧ lookupJ f "data" = some (J.obj df)
      ∧ lookupJ df "accessToken" = some a
      ∧ lookupJ df "refreshToken" = some r
      ∧ (login (initClient "u" "p")
          [.body (J.obj [("code", J.num 200),
            ("data", J.obj [("accessToken", J.str "tok"), ("refreshToken", J.str "ref")])])]).st
        = { initClient "u" "p" with access_token := a, refresh_token := r } :=
  claim7_login_success (initClient "u" "p") _ rfl

/-- C3.  Every client operation is total toward its caller: a transport
failure (`exn`, covering timeout, connection error and malformed JSON), a
missing response, a non-dict body, or a non-success application code all
collapse to the operation's failure value (`false`, the empty list, `none`)
with state and oracle handled normally — the embedding of each method is a
total function whose except-branch yields exactly these values, so no
exception escapes. -/
theorem claim3_no_exception_propagation (st : St) (id : String)
    (p m ts : Nat) (o : List Outcome) (j : J) (f f4 : List (String × J))
    (hj : j.isObj = false)
    (hf : isCode (lookupJ f "code") 200 = false)
    (hf401 : isCode (lookupJ f "code") 401 = false)
    (h401 : lookupJ f4 "code" = some (J.num 401))
    (hrf : (refresh_access_token st o).val = false) :
    login st [] = ⟨false, st, [], [.loginReq]⟩
    ∧ login st (.exn :: o) = ⟨false, st, o, [.loginReq]⟩
    ∧ login st (.body j :: o) = ⟨false, st, o, [.loginReq]⟩
    ∧ (refresh_access_token st []).val = false
    ∧ (refresh_access_token st (.exn :: o)).val = false
    ∧ (refresh_access_token st (.body j :: o)).val = false
    ∧ get_devices st [] = ⟨J.arr [], st, [], [.listReq]⟩
    ∧ get_devices st (.exn :: o) = ⟨J.arr [], st, o, [.listReq]⟩
    ∧ get_devices st (.body j :: o) = ⟨J.arr [], st, o, [.listReq]⟩
    ∧ get_feeder_stats st id [] = ⟨none, st, [], [.statsReq]⟩
    ∧ get_feeder_stats st id (.exn :: o) = ⟨none, st, o, [.statsReq]⟩
    ∧ get_feeder_stats st id (.body j :: o) = ⟨none, st, o, [.statsReq]⟩
    ∧ get_feeder_stats st id (.body (J.obj f) :: o) = ⟨none, st, o, [.statsReq]⟩
    ∧ get_device_attributes st id (.exn :: o) = ⟨none, st, o, [.attrsReq]⟩
    ∧ get_device_attributes st id (.body j :: o) = ⟨none, st, o, [.attrsReq]⟩
    ∧ send_feed_command st id p m ts (.exn :: o)
        = ⟨false, st, o, [.feedReq (command_value m p) (messageId ts)]⟩
    ∧ send_feed_command st id p m ts (.body j :: o)
        = ⟨false, st, o, [.feedReq (command_value m p) (messageId ts)]⟩
    ∧ login st (.body (J.obj f) :: o) = ⟨false, st, o, [.loginReq]⟩
    ∧ (refresh_access_token st (.body (J.obj f) :: o)).val = false
    ∧ get_devices st (.body (J.obj f) :: o) = ⟨J.arr [], st, o, [.listReq]⟩
    ∧ get_devices st (.body (J.obj f4) :: o)
        = ⟨J.arr [], (refresh_access_token st o).st, (refresh_access_token st o).rem,
            .listReq :: .refreshCall :: (refresh_access_token st o).tr⟩
    ∧ get_device_attributes st id (.body (J.obj f) :: o) = ⟨none, st, o, [.attrsReq]⟩
    ∧ send_feed_command st id p m ts (.body (J.obj f) :: o)
        = ⟨false, st, o, [.feedReq (command_value m p) (messageId ts)]⟩ := by
  refine ⟨rfl, rfl, ?_, ?_, ?_, ?_, ?_, ?_, ?_, rfl, rfl, ?_, ?_, rfl, ?_, rfl, ?_, ?_,
    ?_, ?_, ?_, ?_, ?_⟩
  · cases j <;> first | rfl | exact absurd hj (by simp [J.isObj])
  · unfold refresh_access_token
    split <;> rfl
  · unfold refresh_access_token
    split <;> rfl
  · unfold refresh_access_token
    split
    · rfl
    · cases j <;> first
      | rfl
      | exact absurd hj (by simp [J.isObj])
  · rw [get_devices]
  · rw [get_devices]
  · cases j <;> first
      | (rw [get_devices] <;> exact fun fields hcc => J.noConfusion hcc)
      | exact absurd hj (by simp [J.isObj])
  · cases j <;> first | rfl | exact absurd hj (by simp [J.isObj])
  · unfold get_feeder_stats
    simp [hf]
  · cases j <;> first | rfl | exact absurd hj (by simp [J.isObj])
  · cases j <;> first | rfl | exact absurd hj (by simp [J.isObj])
  · unfold login
    simp [hf]
  · unfold refresh_access_token
    split
    · rfl
    · dsimp only
      simp [hf]
  · rw [get_devices]
    simp [hf, hf401]
  · rw [get_devices_401_unfold st f4 o h401, if_neg (by simp [hrf])]
  · unfold get_device_attributes
    dsimp only
    simp [hf]
  · unfold send_feed_command
    dsimp only
    simp [hf]

/-- Witness for C3 at concrete inputs: a string body for the malformed case
and an application code 500 for the error-code case. -/
theorem claim3_no_exception_propagation_witness :
    login (initClient "u" "p") [] = ⟨false, initClient "u" "p", [], [.loginReq]⟩
    ∧ login (initClient "u" "p") (.exn :: [])
        = ⟨false, initClient "u" "p", [], [.loginReq]⟩
    ∧ login (initClient "u" "p") (.body (J.str "bad") :: [])
        = ⟨false, initClient "u" "p", [], [.loginReq]⟩
    ∧ (refresh_access_token (initClient "u" "p") []).val = false
    ∧ (refresh_access_token (initClient "u" "p") (.exn :: [])).val = false
    ∧ (refresh_access_token (initClient "u" "p") (.body (J.str "bad") :: [])).val = false
    ∧ get_devices (initClient "u" "p") []
        = ⟨J.arr [], initClient "u" "p", [], [.listReq]⟩
    ∧ get_devices (initClient "u" "p") (.exn :: [])
        = ⟨J.arr [], initClient "u" "p", [], [.listReq]⟩
    ∧ get_devices (initClient "u" "p") (.body (J.str "bad") :: [])
        = ⟨J.arr [], initClient "u" "p", [], [.listReq]⟩
    ∧ get_feeder_stats (initClient "u" "p") "d" []
        = ⟨none, initClient "u" "p", [], [.statsReq]⟩
    ∧ get_feeder_stats (initClient "u" "p") "d" (.exn :: [])
        = ⟨none, initClient "u" "p", [], [.statsReq]⟩
    ∧ get_feeder_stats (initClient "u" "p") "d" (.body (J.str "bad") :: [])
        = ⟨none, initClient "u" "p", [], [.statsReq]⟩
    ∧ get_feeder_stats (initClient "u" "p") "d" (.body (J.obj [("code", J.num 500)]) :: [])
        = ⟨none, initClient "u" "p", [], [.statsReq]⟩
    ∧ get_device_attributes (initClient "u" "p") "d" (.exn :: [])
        = ⟨none, initClient "u" "p", [], [.attrsReq]⟩
    ∧ get_device_attributes (initClient "u" "p") "d" (.body (J.str "bad") :: [])
        = ⟨none, initClient "u" "p", [], [.attrsReq]⟩
    ∧ send_feed_command (initClient "u" "p") "d" 1 2 3 (.exn :: [])
        = ⟨false, initClient "u" "p", [], [.feedReq (command_value 2 1) (messageId 3)]⟩
    ∧ send_feed_command (initClient "u" "p") "d" 1 2 3 (.body (J.str "bad") :: [])
        = ⟨false, initClient "u" "p", [], [.feedReq (command_value 2 1) (messageId 3)]⟩
    ∧ login (initClient "u" "p") (.body (J.obj [("code", J.num 500)]) :: [])
        = ⟨false, initClient "u" "p", [], [.loginReq]⟩
    ∧ (refresh_access_token (initClient "u" "p")
        (.body (J.obj [("code", J.num 500)]) :: [])).val = false
    ∧ get_devices (initClient "u" "p") (.body (J.obj [("code", J.num 500)]) :: [])
        = ⟨J.arr [], initClient "u" "p", [], [.listReq]⟩
    ∧ get_devices (initClient "u" "p") (.body (J.obj [("code", J.num 401)]) :: [])
        = ⟨J.arr [], (refresh_access_token (initClient "u" "p") []).st,
            (refresh_access_token (initClient "u" "p") []).rem,
            .listReq :: .refreshCall :: (refresh_access_token (initClient "u" "p") []).tr⟩
    ∧ get_device_attributes (initClient "u" "p") "d"
        (.body (J.obj [("code", J.num 500)]) :: [])
        = ⟨none, initClient "u" "p", [], [.attrsReq]⟩
    ∧ send_feed_command (initClient "u" "p") "d" 1 2 3
        (.body (J.obj [("code", J.num 500)]) :: [])
        = ⟨false, initClient "u" "p", [], [.feedReq (command_value 2 1) (messageId 3)]⟩ :=
  claim3_no_exception_propagation (initClient "u" "p") "d" 1 2 3 []
    (J.str "bad") [("code", J.num 500)] [("code", J.num 401)] rfl rfl rfl rfl rfl

/-- C5.  `get_feeder_stats` and `get_device_attributes` never call
`refresh_access_token` (their trace is always the single request event) and
never re-issue the request (they consume at most the head of the oracle); a
401-coded response, like any non-200 code, yields `none` directly. -/
theorem claim5_stats_attrs_no_refresh (st : St) (id : String)
    (f : List (String × J)) (rest : List Outcome)
    (h : lookupJ f "code" = some (J.num 401)) :
    (∀ o, (get_feeder_stats st id o).tr = [.statsReq]
      ∧ (get_feeder_stats st id o).rem = o.drop 1
      ∧ (get_device_attributes st id o).tr = [.attrsReq]
      ∧ (get_device_attributes st id o).rem = o.drop 1)
    ∧ (get_feeder_stats st id (.body (J.obj f) :: rest)).val = none
    ∧ (get_device_attributes st id (.body (J.obj f) :: rest)).val = none := by
  have h200 : isCode (lookupJ f "code") 200 = false := by simp [isCode, h]
  refine ⟨?_, ?_, ?_⟩
  · intro o
    match o with
    | [] => exact ⟨rfl, rfl, rfl, rfl⟩
    | .exn :: rest2 => exact ⟨rfl, rfl, rfl, rfl⟩
    | .body J.null :: rest2 => exact ⟨rfl, rfl, rfl, rfl⟩
    | .body (J.bool _) :: rest2 => exact ⟨rfl, rfl, rfl, rfl⟩
    | .body (J.num _) :: rest2 => exact ⟨rfl, rfl, rfl, rfl⟩
    | .body (J.str _) :: rest2 => exact ⟨rfl, rfl, rfl, rfl⟩
    | .body (J.arr _) :: rest2 => exact ⟨rfl, rfl, rfl, rfl⟩
    | .body (J.obj f2) :: rest2 =>
      exact ⟨by unfold get_feeder_stats; dsimp only; split <;> rfl,
        by unfold get_feeder_stats; dsimp only; split <;> rfl,
        by unfold get_device_attributes; dsimp only; split <;> rfl,
        by unfold get_device_attributes; dsimp only; split <;> rfl⟩
  · unfold get_feeder_stats
    simp [h200]
  · unfold get_device_attributes
    simp [h200]

/-- Witness for C5 at a concrete 401 response. -/
theorem claim5_stats_attrs_no_refresh_witness :
    (∀ o, (get_feeder_stats (initClient "u" "p") "d" o).tr = [.statsReq]
      ∧ (get_feeder_stats (initClient "u" "p") "d" o).rem = o.drop 1
      ∧ (get_device_attributes (initClient "u" "p") "d" o).tr = [.attrsReq]
      ∧ (get_device_attributes (initClient "u" "p") "d" o).rem = o.drop 1)
    ∧ (get_feeder_stats (initClient "u" "p") "d"
        (.body (J.obj [("code", J.num 401)]) :: [])).val = none
    ∧ (get_device_attributes (initClient "u" "p") "d"
        (.body (J.obj [("code", J.num 401)]) :: [])).val = none :=
  claim5_stats_attrs_no_refresh (initClient "u" "p") "d" [("code", J.num 401)] [] rfl

/-- C6 counterexample.  `get_feeder_stats` on a 401 response performs zero
refresh attempts — not the exactly-one the claim asserts for it — and simply
returns `none`. -/
theorem claim6_counterexample :
    (get_feeder_stats ⟨"u", "p", J.str "at", J.str "rt"⟩ "dev"
        [.body (J.obj [("code", J.num 401)])]).tr.count Ev.refreshCall = 0
    ∧ (get_feeder_stats ⟨"u", "p", J.str "at", J.str "rt"⟩ "dev"
        [.body (J.obj [("code", J.num 401)])]).val = none :=
  ⟨rfl, rfl⟩

/-- C6 (amended).  Only `get_devices` reacts to an auth-expired (401) signal
with a refresh attempt (exactly one per 401 response, shown in C2);
`get_feeder_stats`, `get_device_attributes` and `send_feed_command` trigger
zero refresh attempts on every execution, auth-expired or not, and return
their failure value directly. -/
theorem claim6_refresh_only_list (st : St) (id : String) (p m ts : Nat)
    (o : List Outcome) (f : List (String × J)) (rest : List Outcome)
    (h401 : lookupJ f "code" = some (J.num 401))
    (hrf : (refresh_access_token st rest).val = false) :
    (get_feeder_stats st id o).tr.count Ev.refreshCall = 0
    ∧ (get_device_attributes st id o).tr.count Ev.refreshCall = 0
    ∧ (send_feed_command st id p m ts o).tr.count Ev.refreshCall = 0
    ∧ (get_devices st (.body (J.obj f) :: rest)).tr.count Ev.refreshCall = 1 := by
  refine ⟨?_, ?_, ?_, ?_⟩
  · unfold get_feeder_stats
    repeat' split
    all_goals rfl
  · unfold get_device_attributes
    repeat' split
    all_goals rfl
  · unfold send_feed_command
    repeat' split
    all_goals rfl
  · rw [get_devices_401_unfold st f rest h401, if_neg (by simp [hrf])]
    simp [List.count_cons, refresh_tr_count]

/-- Witness for C6 (amended) at concrete inputs: empty oracles for the three
non-refreshing operations and a 401 response with no held refresh token for
`get_devices`. -/
theorem claim6_refresh_only_list_witness :
    (get_feeder_stats ⟨"u", "p", J.null, J.null⟩ "d" []).tr.count Ev.refreshCall = 0
    ∧ (get_device_attributes ⟨"u", "p", J.null, J.null⟩ "d" []).tr.count Ev.refreshCall = 0
    ∧ (send_feed_command ⟨"u", "p", J.null, J.null⟩ "d" 1 2 3 []).tr.count Ev.refreshCall = 0
    ∧ (get_devices ⟨"u", "p", J.null, J.null⟩
        [.body (J.obj [("code", J.num 401)])]).tr.count Ev.refreshCall = 1 :=
  claim6_refresh_only_list ⟨"u", "p", J.null, J.null⟩ "d" 1 2 3 []
    [("code", J.num 401)] [] rfl rfl

/-- C10.  `get_feeder_stats`, `get_device_attributes` and `send_feed_command`
never mutate the client state: on every execution, successful or failing, the
state after the call — username, password, access_token and refresh_token —
is exactly the state before it.  Token state is only ever written by `login`,
`refresh_access_token`, and `get_devices` through its internal refresh. -/
theorem claim10_read_ops_frame (st : St) (id : String) (p m ts : Nat)
    (o : List Outcome) :
    (get_feeder_stats st id o).st = st
    ∧ (get_device_attributes st id o).st = st
    ∧ (send_feed_command st id p m ts o).st = st := by
  refine ⟨?_, ?_, ?_⟩
  · unfold get_feeder_stats
    repeat' split
    all_goals rfl
  · unfold get_device_attributes
    repeat' split
    all_goals rfl
  · unfold send_feed_command
    repeat' split
    all_goals rfl

/-- C9 (code bug).  The vendor-documented portion range recorded in const.py
is `MIN_PORTIONS = 1`, `MAX_PORTIONS = 9`, but the manual-feed number entity
hard-codes `native_max_value = 10`, so the user-facing interface accepts the
portion count 10, outside the documented 1-9 range; the feed service handler
additionally forwards whatever `portions` value the call supplies, with no
validation at all (here 100). -/
theorem claim9_portion_range_exceeded :
    entityAllowed 10 = true
    ∧ ¬ (10 ≤ MAX_PORTIONS)
    ∧ MIN_PORTIONS = 1
    ∧ MAX_PORTIONS = 9
    ∧ manualFeedPortionsMax = 10
    ∧ servicePortions [("portions", J.num 100)] = J.num 100 :=
  ⟨rfl, by decide, rfl, rfl, rfl, rfl⟩

end HGSmart
